import Mathlib

/-!
# Mesh directory client (`core/mesh.go`)

A shallow embedding of the operations of `DefaultAPI` in `core/mesh.go` and of
the two conversions `peersResponseToMachinePeers` and
`peersResponseToLocalPeers`.

Modelling choices.

* A Go slice is a `Slice`: either the nil slice or a (possibly empty) backing
  list, so that `nil` and `make([]T, 0, n)` are distinguishable while both
  have length 0.
* `error` values are an `Error`: the three package-level sentinels, a value
  built by `errors.New` inside an operation, or a value handed back by a
  collaborator and returned unchanged.
* The functions that `mesh.go` calls but does not define (`api.do`,
  `request.NewRequestWithBearerToken`, `ExtractError`, `ioutil.ReadAll`,
  `json.Marshal`, `json.Unmarshal`) are fields of `Collaborators`.
* `api.do` acts on the state of the remote directory.  Every request handed
  to it is appended to `Net.calls`, which makes "the transport is not
  invoked" a statement about that log.
* The mutex `api.mu` only serialises calls; the embedding is sequential.
-/

namespace Mesh

/-! ## Go values -/

/-- Go slice: `nil`, or a slice backed by the listed elements. -/
inductive Slice (α : Type) where
  | nil : Slice α
  | mk (elems : List α) : Slice α
deriving DecidableEq

namespace Slice

/-- Elements of a slice in order, as `range` visits them. -/
def toList {α : Type} : Slice α → List α
  | nil => []
  | mk xs => xs

/-- Go `len(s)`. -/
def len {α : Type} (s : Slice α) : Nat := s.toList.length

/-- Go `make([]T, 0, n)`: an empty slice that is not nil. -/
def make0 {α : Type} : Slice α := mk []

/-- Go `append(s, x)`. -/
def append {α : Type} (s : Slice α) (x : α) : Slice α := mk (s.toList ++ [x])

/-- Go `s == nil`. -/
def isNil {α : Type} : Slice α → Bool
  | nil => true
  | mk _ => false

/-- Go `s[0]`, read only under a `len(s) > 0` guard; `d` stands for the
unreachable out-of-range case. -/
def first {α : Type} (s : Slice α) (d : α) : α := s.toList.headD d

end Slice

/-- Byte sequence (`[]byte`). -/
abbrev Bytes := List UInt8

/-- Value of `netip.Addr`: the zero value or an IP address given by its text form. -/
inductive Addr where
  | zero : Addr
  | ip (text : String) : Addr
deriving DecidableEq

/-- Value of `netip.AddrPort`. -/
structure AddrPort where
  addr : Addr
  port : Nat
deriving DecidableEq

/-- Value of `uuid.UUID`, identified by the text `String()` prints. -/
structure UUID where
  text : String
deriving DecidableEq

/-- Zero value `uuid.Nil`. -/
def UUID.Nil : UUID := ⟨"00000000-0000-0000-0000-000000000000"⟩

/-- Go `error` values that the operations of `mesh.go` can return. -/
inductive Error where
  | ErrPublicKeyNotProvided : Error
  | ErrPeerOSNotProvided : Error
  | ErrPeerEndpointsNotProvided : Error
  | new (msg : String) : Error
  | foreign (msg : String) : Error
deriving DecidableEq

/-! ## Domain model and wire records (package `mesh`, fields as used by `mesh.go`) -/

structure OperatingSystem where
  Name : String
  Distro : String
deriving DecidableEq

structure Machine where
  ID : UUID
  HardwareID : UUID
  Hostname : String
  OS : OperatingSystem
  PublicKey : String
  Endpoints : Slice AddrPort
  Address : Addr
  SupportsRouting : Bool
deriving DecidableEq

structure MachinePeer where
  ID : UUID
  Hostname : String
  OS : OperatingSystem
  PublicKey : String
  Endpoints : Slice AddrPort
  Address : Addr
  Email : String
  IsLocal : Bool
  DoesPeerAllowRouting : Bool
  DoesPeerAllowInbound : Bool
  DoesPeerAllowLocalNetwork : Bool
  DoesPeerAllowFileshare : Bool
  DoesPeerSupportRouting : Bool
  DoIAllowRouting : Bool
  DoIAllowInbound : Bool
  DoIAllowLocalNetwork : Bool
  DoIAllowFileshare : Bool
  AlwaysAcceptFiles : Bool
deriving DecidableEq

structure MachinePeerResponse where
  ID : UUID
  Hostname : String
  OS : String
  Distro : String
  PublicKey : String
  Endpoints : Slice AddrPort
  Addresses : Slice Addr
  Email : String
  IsLocal : Bool
  DoesPeerAllowRouting : Bool
  DoesPeerAllowInbound : Bool
  DoesPeerAllowLocalNetwork : Bool
  DoesPeerAllowFileshare : Bool
  DoesPeerSupportRouting : Bool
  DoIAllowRouting : Bool
  DoIAllowInbound : Bool
  DoIAllowLocalNetwork : Bool
  DoIAllowFileshare : Bool
  AlwaysAcceptFiles : Bool
deriving DecidableEq

structure MachineCreateRequest where
  PublicKey : String
  HardwareID : UUID
  OS : String
  Distro : String
  Endpoints : Slice AddrPort
  SupportsRouting : Bool
deriving DecidableEq

structure MachineCreateResponse where
  Identifier : UUID
  Hostname : String
  Endpoints : Slice AddrPort
  Addresses : Slice Addr
deriving DecidableEq

structure MachineUpdateRequest where
  Endpoints : Slice AddrPort
  SupportsRouting : Bool
deriving DecidableEq

structure PeerUpdateRequest where
  DoIAllowInbound : Bool
  DoIAllowRouting : Bool
  DoIAllowLocalNetwork : Bool
  DoIAllowFileshare : Bool
  AllwaysAcceptFiles : Bool
deriving DecidableEq

structure AcceptInvitationRequest where
  AllowInbound : Bool
  AllowRouting : Bool
  AllowLocalNetwork : Bool
  AllowFileshare : Bool
deriving DecidableEq

/-- Host table of the `DNS` part of a map response. -/
abbrev Hosts := List (String × Addr)

structure DNS where
  Hosts : Hosts
deriving DecidableEq

structure MachineMapResponse where
  ID : UUID
  Hostname : String
  PublicKey : String
  Endpoints : Slice AddrPort
  Addresses : Slice Addr
  DNS : DNS
  Peers : Slice MachinePeerResponse
deriving DecidableEq

structure MachineMap where
  Machine : Machine
  Hosts : Hosts
  Peers : Slice MachinePeer
  Raw : Bytes
deriving DecidableEq

/-- Zero value of `mesh.Machine`; a struct literal leaves the fields it does
not name at these values. -/
def Machine.zero : Machine :=
  { ID := UUID.Nil, HardwareID := UUID.Nil, Hostname := "", OS := ⟨"", ""⟩,
    PublicKey := "", Endpoints := Slice.nil, Address := Addr.zero,
    SupportsRouting := false }

/-! ## Constants of `mesh.go` -/

def urlMeshRegister : String := "/v1/meshnet/machines"

/-- Expansion of `fmt.Sprintf(urlMeshMachines, id)`. -/
def urlMeshMachines (id : String) : String := "/v1/meshnet/machines/" ++ id

/-- The format string `urlMeshMachines` itself, which `Local` passes unexpanded. -/
def urlMeshMachinesFormat : String := "/v1/meshnet/machines/%s"

/-- Expansion of `fmt.Sprintf(urlMeshMachinesPeers, id, peer)`. -/
def urlMeshMachinesPeers (id peer : String) : String :=
  "/v1/meshnet/machines/" ++ id ++ "/peers/" ++ peer

def urlMeshMap (id : String) : String := urlMeshMachines id ++ "/map"

def urlMeshPeers (id : String) : String := urlMeshMachines id ++ "/peers"

def urlInvitationSend (id : String) : String := urlMeshMachines id ++ "/invitations"

def urlAcceptInvitation (id inv : String) : String :=
  urlInvitationSend id ++ "/" ++ inv ++ "/accept"

def urlRejectInvitation (id inv : String) : String :=
  urlInvitationSend id ++ "/" ++ inv ++ "/reject"

def urlRevokeInvitation (id inv : String) : String :=
  urlInvitationSend id ++ "/" ++ inv

def MethodGet : String := "GET"
def MethodPost : String := "POST"
def MethodPatch : String := "PATCH"
def MethodDelete : String := "DELETE"

/-! ## Collaborators and client state -/

/-- Functions called by `mesh.go` and defined elsewhere.  `Req` and `Resp`
are `*http.Request` and `*http.Response`; `σ` is the state of the remote
directory as seen through the transport. Each error is the message of the
collaborator's error value. -/
structure Collaborators (Req Resp σ : Type) where
  /-- Transport call `api.do(req)`. -/
  do_ : Req → σ → Except String Resp × σ
  /-- Constructor `request.NewRequestWithBearerToken`. -/
  NewRequestWithBearerToken :
    (method agent baseURL pathURL contentType contentLength encoding : String) →
    (body : Option Bytes) → (token : String) → Except String Req
  /-- Envelope check `ExtractError(resp)`; `none` is a nil error. -/
  ExtractError : Resp → Option String
  /-- Body read `ioutil.ReadAll(resp.Body)`. -/
  ReadAll : Resp → Except String Bytes
  marshalMachineCreateRequest : MachineCreateRequest → Except String Bytes
  marshalMachineUpdateRequest : MachineUpdateRequest → Except String Bytes
  marshalPeerUpdateRequest : PeerUpdateRequest → Except String Bytes
  marshalAcceptInvitationRequest : AcceptInvitationRequest → Except String Bytes
  unmarshalMachineCreateResponse : Bytes → Except String MachineCreateResponse
  unmarshalMachineMapResponse : Bytes → Except String MachineMapResponse
  unmarshalMachinePeerResponses : Bytes → Except String (Slice MachinePeerResponse)

/-- Configuration held by the client value. -/
structure DefaultAPI where
  agent : String
  baseURL : String

/-- What an operation can change: the remote directory and the log of
requests handed to the transport. -/
structure Net (Req σ : Type) where
  world : σ
  calls : List Req

section Operations

variable {Req Resp σ : Type}

/-- One invocation of `api.do`: runs the transport and records the request. -/
def apiDo (c : Collaborators Req Resp σ) (req : Req) (s : Net Req σ) :
    Except String Resp × Net Req σ :=
  ((c.do_ req s.world).1, { world := (c.do_ req s.world).2, calls := s.calls ++ [req] })

/-- Conversion `peersResponseToMachinePeers` (mesh.go:56). -/
def peersResponseToMachinePeers (rawPeers : Slice MachinePeerResponse) : Slice MachinePeer :=
  rawPeers.toList.foldl
    (fun peers p =>
      let addr := if p.Addresses.len > 0 then p.Addresses.first Addr.zero else Addr.zero
      peers.append
        { ID := p.ID
          Hostname := p.Hostname
          OS := { Name := p.OS, Distro := p.Distro }
          PublicKey := p.PublicKey
          Endpoints := p.Endpoints
          Address := addr
          Email := p.Email
          IsLocal := p.IsLocal
          DoesPeerAllowRouting := p.DoesPeerAllowRouting
          DoesPeerAllowInbound := p.DoesPeerAllowInbound
          DoesPeerAllowLocalNetwork := p.DoesPeerAllowLocalNetwork
          DoesPeerAllowFileshare := p.DoesPeerAllowFileshare
          DoesPeerSupportRouting := p.DoesPeerSupportRouting
          DoIAllowRouting := p.DoIAllowRouting
          DoIAllowInbound := p.DoIAllowInbound
          DoIAllowLocalNetwork := p.DoIAllowLocalNetwork
          DoIAllowFileshare := p.DoIAllowFileshare
          AlwaysAcceptFiles := p.AlwaysAcceptFiles })
    Slice.make0

/-- Operation `Register` (mesh.go:94): registers a peer to the mesh network. -/
def DefaultAPI.Register (c : Collaborators Req Resp σ) (api : DefaultAPI) (token : String)
    (peer : Machine) (s : Net Req σ) : Except Error Machine × Net Req σ :=
  if peer.PublicKey = "" then (.error Error.ErrPublicKeyNotProvided, s)
  else if peer.OS.Name = "" ∨ peer.OS.Distro = "" then (.error Error.ErrPeerOSNotProvided, s)
  else
    match c.marshalMachineCreateRequest
        { PublicKey := peer.PublicKey
          HardwareID := peer.HardwareID
          OS := peer.OS.Name
          Distro := peer.OS.Distro
          Endpoints := peer.Endpoints
          SupportsRouting := peer.SupportsRouting } with
    | .error e => (.error (Error.foreign e), s)
    | .ok data =>
      match c.NewRequestWithBearerToken MethodPost api.agent api.baseURL urlMeshRegister
          "application/json" "" "" (some data) token with
      | .error e => (.error (Error.foreign e), s)
      | .ok req =>
        match apiDo c req s with
        | (.error e, s1) => (.error (Error.foreign e), s1)
        | (.ok resp, s1) =>
          match c.ExtractError resp with
          | some e => (.error (Error.foreign e), s1)
          | none =>
            match c.ReadAll resp with
            | .error e => (.error (Error.foreign e), s1)
            | .ok body =>
              match c.unmarshalMachineCreateResponse body with
              | .error e => (.error (Error.foreign e), s1)
              | .ok raw =>
                if raw.Addresses.len < 1 then (.error (Error.new "invalid response"), s1)
                else
                  let addr :=
                    if raw.Addresses.len > 0 then raw.Addresses.first Addr.zero else Addr.zero
                  (.ok { Machine.zero with
                          ID := raw.Identifier
                          Hostname := raw.Hostname
                          OS := peer.OS
                          PublicKey := peer.PublicKey
                          Endpoints := raw.Endpoints
                          Address := addr }, s1)

/-- Operation `Update` (mesh.go:173): publishes new endpoints; `none` is a nil error. -/
def DefaultAPI.Update (c : Collaborators Req Resp σ) (api : DefaultAPI) (token : String) (id : UUID)
    (endpoints : Slice AddrPort) (s : Net Req σ) : Option Error × Net Req σ :=
  if endpoints.len = 0 then (some Error.ErrPeerEndpointsNotProvided, s)
  else
    match c.marshalMachineUpdateRequest { Endpoints := endpoints, SupportsRouting := true } with
    | .error e => (some (Error.foreign e), s)
    | .ok data =>
      match c.NewRequestWithBearerToken MethodPatch api.agent api.baseURL
          (urlMeshMachines id.text) "application/json" "" "" (some data) token with
      | .error e => (some (Error.foreign e), s)
      | .ok req =>
        match apiDo c req s with
        | (.error e, s1) => (some (Error.foreign e), s1)
        | (.ok resp, s1) => ((c.ExtractError resp).map Error.foreign, s1)

/-- Operation `Configure` (mesh.go:215): sets the interaction with one peer;
`none` is a nil error. -/
def DefaultAPI.Configure (c : Collaborators Req Resp σ) (api : DefaultAPI) (token : String)
    (id peerID : UUID)
    (doIAllowInbound doIAllowRouting doIAllowLocalNetwork doIAllowFileshare
      alwaysAcceptfiles : Bool)
    (s : Net Req σ) : Option Error × Net Req σ :=
  match c.marshalPeerUpdateRequest
      { DoIAllowInbound := doIAllowInbound
        DoIAllowRouting := doIAllowRouting
        DoIAllowLocalNetwork := doIAllowLocalNetwork
        DoIAllowFileshare := doIAllowFileshare
        AllwaysAcceptFiles := alwaysAcceptfiles } with
  | .error e => (some (Error.foreign e), s)
  | .ok data =>
    match c.NewRequestWithBearerToken MethodPatch api.agent api.baseURL
        (urlMeshMachinesPeers id.text peerID.text) "application/json" "" "" (some data)
        token with
    | .error e => (some (Error.foreign e), s)
    | .ok req =>
      match apiDo c req s with
      | (.error e, s1) => (some (Error.foreign e), s1)
      | (.ok resp, s1) => ((c.ExtractError resp).map Error.foreign, s1)

/-- Conversion `peersResponseToLocalPeers` (mesh.go:293). -/
def peersResponseToLocalPeers (rawPeers : Slice MachinePeerResponse) : Slice Machine :=
  rawPeers.toList.foldl
    (fun peers p =>
      let addr := if p.Addresses.len > 0 then p.Addresses.first Addr.zero else Addr.zero
      peers.append
        { Machine.zero with
          ID := p.ID
          Hostname := p.Hostname
          OS := { Name := p.OS, Distro := p.Distro }
          PublicKey := p.PublicKey
          Endpoints := p.Endpoints
          Address := addr })
    Slice.make0

/-- Operation `Local` (mesh.go:318): the local peer list. -/
def DefaultAPI.Local (c : Collaborators Req Resp σ) (api : DefaultAPI) (token : String)
    (s : Net Req σ) : Except Error (Slice Machine) × Net Req σ :=
  match c.NewRequestWithBearerToken MethodGet api.agent api.baseURL urlMeshMachinesFormat
      "application/json" "" "" none token with
  | .error e => (.error (Error.foreign e), s)
  | .ok req =>
    match apiDo c req s with
    | (.error e, s1) => (.error (Error.foreign e), s1)
    | (.ok resp, s1) =>
      match c.ExtractError resp with
      | some e => (.error (Error.foreign e), s1)
      | none =>
        match c.ReadAll resp with
        | .error e => (.error (Error.foreign e), s1)
        | .ok body =>
          match c.unmarshalMachinePeerResponses body with
          | .error e => (.error (Error.foreign e), s1)
          | .ok rawPeers => (.ok (peersResponseToLocalPeers rawPeers), s1)

/-- Operation `Map` (mesh.go:363): the topology snapshot of `self`. -/
def DefaultAPI.Map (c : Collaborators Req Resp σ) (api : DefaultAPI) (token : String) (self : UUID)
    (s : Net Req σ) : Except Error MachineMap × Net Req σ :=
  match c.NewRequestWithBearerToken MethodGet api.agent api.baseURL (urlMeshMap self.text)
      "application/json" "" "" none token with
  | .error e => (.error (Error.foreign e), s)
  | .ok req =>
    match apiDo c req s with
    | (.error e, s1) => (.error (Error.foreign e), s1)
    | (.ok resp, s1) =>
      match c.ExtractError resp with
      | some e => (.error (Error.foreign e), s1)
      | none =>
        match c.ReadAll resp with
        | .error e => (.error (Error.foreign e), s1)
        | .ok body =>
          match c.unmarshalMachineMapResponse body with
          | .error e => (.error (Error.foreign e), s1)
          | .ok raw =>
            let peers := peersResponseToMachinePeers raw.Peers
            let addr :=
              if raw.Addresses.len > 0 then raw.Addresses.first Addr.zero else Addr.zero
            (.ok { Machine :=
                     { Machine.zero with
                       ID := raw.ID
                       Hostname := raw.Hostname
                       PublicKey := raw.PublicKey
                       Endpoints := raw.Endpoints
                       Address := addr }
                   Hosts := raw.DNS.Hosts
                   Peers := peers
                   Raw := body }, s1)

/-- Operation `List` (mesh.go:426): the peers of `self`. -/
def DefaultAPI.List (c : Collaborators Req Resp σ) (api : DefaultAPI) (token : String) (self : UUID)
    (s : Net Req σ) : Except Error (Slice MachinePeer) × Net Req σ :=
  match c.NewRequestWithBearerToken MethodGet api.agent api.baseURL (urlMeshPeers self.text)
      "application/json" "" "" none token with
  | .error e => (.error (Error.foreign e), s)
  | .ok req =>
    match apiDo c req s with
    | (.error e, s1) => (.error (Error.foreign e), s1)
    | (.ok resp, s1) =>
      match c.ExtractError resp with
      | some e => (.error (Error.foreign e), s1)
      | none =>
        match c.ReadAll resp with
        | .error e => (.error (Error.foreign e), s1)
        | .ok body =>
          match c.unmarshalMachinePeerResponses body with
          | .error e => (.error (Error.foreign e), s1)
          | .ok rawPeers => (.ok (peersResponseToMachinePeers rawPeers), s1)

/-- Operation `Accept` (mesh.go:640): accepts an invitation; `none` is a nil error. -/
def DefaultAPI.Accept (c : Collaborators Req Resp σ) (api : DefaultAPI) (token : String)
    (self invitation : UUID)
    (doIAllowInbound doIAllowRouting doIAllowLocalNetwork doIAllowFileshare : Bool)
    (s : Net Req σ) : Option Error × Net Req σ :=
  match c.marshalAcceptInvitationRequest
      { AllowInbound := doIAllowInbound
        AllowRouting := doIAllowRouting
        AllowLocalNetwork := doIAllowLocalNetwork
        AllowFileshare := doIAllowFileshare } with
  | .error e => (some (Error.foreign e), s)
  | .ok data =>
    match c.NewRequestWithBearerToken MethodPost api.agent api.baseURL
        (urlAcceptInvitation self.text invitation.text) "application/json" "" "" (some data)
        token with
    | .error e => (some (Error.foreign e), s)
    | .ok req =>
      match apiDo c req s with
      | (.error e, s1) => (some (Error.foreign e), s1)
      | (.ok resp, s1) => ((c.ExtractError resp).map Error.foreign, s1)

/-- Operation `Reject` (mesh.go:688): rejects an invitation; `none` is a nil error. -/
def DefaultAPI.Reject (c : Collaborators Req Resp σ) (api : DefaultAPI) (token : String)
    (self invitation : UUID) (s : Net Req σ) : Option Error × Net Req σ :=
  match c.NewRequestWithBearerToken MethodPost api.agent api.baseURL
      (urlRejectInvitation self.text invitation.text) "application/json" "" "" none token with
  | .error e => (some (Error.foreign e), s)
  | .ok req =>
    match apiDo c req s with
    | (.error e, s1) => (some (Error.foreign e), s1)
    | (.ok resp, s1) => ((c.ExtractError resp).map Error.foreign, s1)

/-- Operation `Revoke` (mesh.go:708): revokes an invitation; `none` is a nil error. -/
def DefaultAPI.Revoke (c : Collaborators Req Resp σ) (api : DefaultAPI) (token : String)
    (self invitation : UUID) (s : Net Req σ) : Option Error × Net Req σ :=
  match c.NewRequestWithBearerToken MethodDelete api.agent api.baseURL
      (urlRevokeInvitation self.text invitation.text) "application/json" "" "" none token with
  | .error e => (some (Error.foreign e), s)
  | .ok req =>
    match apiDo c req s with
    | (.error e, s1) => (some (Error.foreign e), s1)
    | (.ok resp, s1) => ((c.ExtractError resp).map Error.foreign, s1)

end Operations

/-! ## A stub directory, used to run the operations on concrete inputs -/

/-- Request as the stub transport sees it. -/
structure StubRequest where
  method : String
  path : String
  body : Option Bytes
  token : String
deriving DecidableEq

/-- Response of the stub transport: an optional error envelope and a body. -/
structure StubResponse where
  envelope : Option String
  body : Bytes
deriving DecidableEq

/-- Stub collaborators: the transport answers every request with `resp` and
counts the requests it served; every encoder produces `encoded`; the decoders
accept exactly the body `wire` and then yield the given records. -/
def stubCollaborators (resp : StubResponse) (encoded wire : Bytes)
    (created : MachineCreateResponse) (topology : MachineMapResponse)
    (peers : Slice MachinePeerResponse) : Collaborators StubRequest StubResponse Nat :=
  { do_ := fun _ served => (.ok resp, served + 1)
    NewRequestWithBearerToken := fun method _ _ pathURL _ _ _ body token =>
      .ok { method := method, path := pathURL, body := body, token := token }
    ExtractError := fun r => r.envelope
    ReadAll := fun r => .ok r.body
    marshalMachineCreateRequest := fun _ => .ok encoded
    marshalMachineUpdateRequest := fun _ => .ok encoded
    marshalPeerUpdateRequest := fun _ => .ok encoded
    marshalAcceptInvitationRequest := fun _ => .ok encoded
    unmarshalMachineCreateResponse := fun b =>
      if b = wire then .ok created else .error "unexpected end of JSON input"
    unmarshalMachineMapResponse := fun b =>
      if b = wire then .ok topology else .error "unexpected end of JSON input"
    unmarshalMachinePeerResponses := fun b =>
      if b = wire then .ok peers else .error "unexpected end of JSON input" }

/-- Client configuration of the examples. -/
def stubAPI : DefaultAPI := { agent := "agent", baseURL := "https://directory.example" }

/-- Initial state of the examples: nothing served, nothing sent. -/
def stubNet : Net StubRequest Nat := { world := 0, calls := [] }

/-- Candidate machine of the registration scenario. -/
def scenarioCandidate : Machine :=
  { Machine.zero with PublicKey := "pk1", OS := { Name := "linux", Distro := "ubuntu" } }

/-- Directory answer of the registration scenario. -/
def scenarioCreated : MachineCreateResponse :=
  { Identifier := ⟨"m1"⟩
    Hostname := "h1"
    Endpoints := Slice.mk [⟨Addr.ip "10.0.0.1", 51820⟩]
    Addresses := Slice.mk [Addr.ip "10.0.0.1"] }

/-- A peer record with every flag cleared. -/
def blankPeerRecord : MachinePeerResponse :=
  { ID := ⟨"p1"⟩, Hostname := "peer1", OS := "linux", Distro := "debian", PublicKey := "pk2",
    Endpoints := Slice.nil, Addresses := Slice.nil, Email := "", IsLocal := false,
    DoesPeerAllowRouting := false, DoesPeerAllowInbound := false,
    DoesPeerAllowLocalNetwork := false, DoesPeerAllowFileshare := false,
    DoesPeerSupportRouting := false, DoIAllowRouting := false, DoIAllowInbound := false,
    DoIAllowLocalNetwork := false, DoIAllowFileshare := false, AlwaysAcceptFiles := false }

/-- A map answer without peers. -/
def emptyTopology : MachineMapResponse :=
  { ID := ⟨"m1"⟩, Hostname := "h1", PublicKey := "pk1", Endpoints := Slice.nil,
    Addresses := Slice.mk [Addr.ip "10.0.0.1"], DNS := { Hosts := [] }, Peers := Slice.nil }

/-- Stub collaborators answering with a success response of body `[123, 125]`. -/
def okStub (created : MachineCreateResponse) (topology : MachineMapResponse)
    (peers : Slice MachinePeerResponse) : Collaborators StubRequest StubResponse Nat :=
  stubCollaborators { envelope := none, body := [123, 125] } [91, 93] [123, 125]
    created topology peers


/-- The record that echoes the grants of the scenario: routing and fileshare
allowed, the rest refused; the peer itself allows inbound traffic and is local. -/
def scenarioEcho : MachinePeerResponse :=
  { blankPeerRecord with
    DoIAllowRouting := true, DoIAllowFileshare := true,
    DoesPeerAllowInbound := true, IsLocal := true }

/-- Stub collaborators whose directory answers every request with an error
envelope reporting an invalid invitation state. -/
def invalidStateStub : Collaborators StubRequest StubResponse Nat :=
  stubCollaborators { envelope := some "invalid state", body := [] } [91, 93] [123, 125]
    scenarioCreated emptyTopology Slice.nil

/-- A second peer record, distinct from the blank one in every identity
field and in its flags. -/
def secondPeerRecord : MachinePeerResponse :=
  { ID := ⟨"p2"⟩, Hostname := "peer2", OS := "windows", Distro := "11", PublicKey := "pk3",
    Endpoints := Slice.mk [⟨Addr.ip "10.0.0.2", 51820⟩],
    Addresses := Slice.mk [Addr.ip "10.0.0.2"], Email := "peer2@example.com",
    IsLocal := true,
    DoesPeerAllowRouting := true, DoesPeerAllowInbound := false,
    DoesPeerAllowLocalNetwork := true, DoesPeerAllowFileshare := false,
    DoesPeerSupportRouting := true, DoIAllowRouting := false, DoIAllowInbound := true,
    DoIAllowLocalNetwork := false, DoIAllowFileshare := true, AlwaysAcceptFiles := true }

/-- A map answer with two distinct peers, the blank record first. -/
def twoPeerTopology : MachineMapResponse :=
  { emptyTopology with Peers := Slice.mk [blankPeerRecord, secondPeerRecord] }

/-! ## Lemmas on slices and on the two conversions -/

section Lemmas

variable {Req Resp σ : Type}

theorem Slice.len_eq_zero_iff {α : Type} (s : Slice α) :
    s.len = 0 ↔ s = Slice.nil ∨ s = Slice.mk [] := by
  cases s with
  | nil => simp [Slice.len, Slice.toList]
  | mk xs => cases xs <;> simp [Slice.len, Slice.toList]

theorem Slice.toList_mk {α : Type} (xs : List α) : (Slice.mk xs).toList = xs := rfl

/-- A `range` loop that appends one converted element per iteration builds
the converted list after what was already there. -/
theorem Slice.foldl_append_eq {α β : Type} (f : α → β) (xs : List α) (init : List β) :
    xs.foldl (fun (acc : Slice β) x => acc.append (f x)) (Slice.mk init)
      = Slice.mk (init ++ xs.map f) := by
  induction xs generalizing init with
  | nil => simp
  | cons x rest ih =>
    have hstep : (Slice.mk init).append (f x) = Slice.mk (init ++ [f x]) := rfl
    rw [List.foldl_cons, hstep, ih]
    simp

/-- One peer record as `peersResponseToMachinePeers` converts it. -/
theorem peersResponseToMachinePeers_eq_map (rawPeers : Slice MachinePeerResponse) :
    peersResponseToMachinePeers rawPeers
      = Slice.mk (rawPeers.toList.map fun p =>
          { ID := p.ID
            Hostname := p.Hostname
            OS := { Name := p.OS, Distro := p.Distro }
            PublicKey := p.PublicKey
            Endpoints := p.Endpoints
            Address := if p.Addresses.len > 0 then p.Addresses.first Addr.zero else Addr.zero
            Email := p.Email
            IsLocal := p.IsLocal
            DoesPeerAllowRouting := p.DoesPeerAllowRouting
            DoesPeerAllowInbound := p.DoesPeerAllowInbound
            DoesPeerAllowLocalNetwork := p.DoesPeerAllowLocalNetwork
            DoesPeerAllowFileshare := p.DoesPeerAllowFileshare
            DoesPeerSupportRouting := p.DoesPeerSupportRouting
            DoIAllowRouting := p.DoIAllowRouting
            DoIAllowInbound := p.DoIAllowInbound
            DoIAllowLocalNetwork := p.DoIAllowLocalNetwork
            DoIAllowFileshare := p.DoIAllowFileshare
            AlwaysAcceptFiles := p.AlwaysAcceptFiles }) := by
  unfold peersResponseToMachinePeers Slice.make0
  rw [Slice.foldl_append_eq]
  simp

theorem peersResponseToLocalPeers_eq_map (rawPeers : Slice MachinePeerResponse) :
    peersResponseToLocalPeers rawPeers
      = Slice.mk (rawPeers.toList.map fun p =>
          { Machine.zero with
            ID := p.ID
            Hostname := p.Hostname
            OS := { Name := p.OS, Distro := p.Distro }
            PublicKey := p.PublicKey
            Endpoints := p.Endpoints
            Address := if p.Addresses.len > 0 then p.Addresses.first Addr.zero
                       else Addr.zero }) := by
  unfold peersResponseToLocalPeers Slice.make0
  rw [Slice.foldl_append_eq]
  simp

/-- The record at position `i` is converted into the peer at position `i`,
flag by flag. -/
theorem peersResponseToMachinePeers_at (records : Slice MachinePeerResponse) (i : Nat)
    (p : MachinePeerResponse) (hrecord : records.toList[i]? = some p) :
    ∃ mp : MachinePeer,
      (peersResponseToMachinePeers records).toList[i]? = some mp ∧
        mp.DoIAllowInbound = p.DoIAllowInbound ∧ mp.DoIAllowRouting = p.DoIAllowRouting ∧
        mp.DoIAllowLocalNetwork = p.DoIAllowLocalNetwork ∧
        mp.DoIAllowFileshare = p.DoIAllowFileshare ∧
        mp.AlwaysAcceptFiles = p.AlwaysAcceptFiles ∧
        mp.DoesPeerAllowRouting = p.DoesPeerAllowRouting ∧
        mp.DoesPeerAllowInbound = p.DoesPeerAllowInbound ∧
        mp.DoesPeerAllowLocalNetwork = p.DoesPeerAllowLocalNetwork ∧
        mp.DoesPeerAllowFileshare = p.DoesPeerAllowFileshare ∧
        mp.DoesPeerSupportRouting = p.DoesPeerSupportRouting ∧
        mp.IsLocal = p.IsLocal := by
  rw [peersResponseToMachinePeers_eq_map]
  simp only [Slice.toList_mk, List.getElem?_map, hrecord, Option.map_some']
  exact ⟨_, rfl, rfl, rfl, rfl, rfl, rfl, rfl, rfl, rfl, rfl, rfl, rfl⟩

/-- The address a conversion picks is the head of the address list, or the
zero address when the list is empty. -/
theorem Slice.guarded_first (s : Slice Addr) :
    (if s.len > 0 then s.first Addr.zero else Addr.zero) = s.toList.headD Addr.zero := by
  cases hl : s.toList with
  | nil => simp [Slice.len, Slice.first, hl]
  | cons a rest => simp [Slice.len, Slice.first, hl]

/-- `List` on a well-formed answer returns the conversion of the decoded records. -/
theorem DefaultAPI.List_ok (c : Collaborators Req Resp σ) (api : DefaultAPI) (token : String)
    (self : UUID) (s : Net Req σ) (req : Req) (resp : Resp) (body : Bytes)
    (rawPeers : Slice MachinePeerResponse)
    (hreq : c.NewRequestWithBearerToken MethodGet api.agent api.baseURL
        (urlMeshPeers self.text) "application/json" "" "" none token = .ok req)
    (hdo : (c.do_ req s.world).1 = .ok resp)
    (henvelope : c.ExtractError resp = none)
    (hread : c.ReadAll resp = .ok body)
    (hdecode : c.unmarshalMachinePeerResponses body = .ok rawPeers) :
    (api.List c token self s).1 = .ok (peersResponseToMachinePeers rawPeers) := by
  simp only [DefaultAPI.List, hreq, apiDo, hdo, henvelope, hread, hdecode]

/-- `Local` on a well-formed answer returns the conversion of the decoded records. -/
theorem DefaultAPI.Local_ok (c : Collaborators Req Resp σ) (api : DefaultAPI)
    (token : String) (s : Net Req σ) (req : Req) (resp : Resp) (body : Bytes)
    (rawPeers : Slice MachinePeerResponse)
    (hreq : c.NewRequestWithBearerToken MethodGet api.agent api.baseURL
        urlMeshMachinesFormat "application/json" "" "" none token = .ok req)
    (hdo : (c.do_ req s.world).1 = .ok resp)
    (henvelope : c.ExtractError resp = none)
    (hread : c.ReadAll resp = .ok body)
    (hdecode : c.unmarshalMachinePeerResponses body = .ok rawPeers) :
    (api.Local c token s).1 = .ok (peersResponseToLocalPeers rawPeers) := by
  simp only [DefaultAPI.Local, hreq, apiDo, hdo, henvelope, hread, hdecode]

/-- `Map` on a well-formed answer returns the snapshot built from the decoded
record together with the body it was decoded from. -/
theorem DefaultAPI.Map_ok (c : Collaborators Req Resp σ) (api : DefaultAPI) (token : String)
    (self : UUID) (s : Net Req σ) (req : Req) (resp : Resp) (body : Bytes)
    (raw : MachineMapResponse)
    (hreq : c.NewRequestWithBearerToken MethodGet api.agent api.baseURL
        (urlMeshMap self.text) "application/json" "" "" none token = .ok req)
    (hdo : (c.do_ req s.world).1 = .ok resp)
    (henvelope : c.ExtractError resp = none)
    (hread : c.ReadAll resp = .ok body)
    (hdecode : c.unmarshalMachineMapResponse body = .ok raw) :
    (api.Map c token self s).1
      = .ok { Machine :=
                { Machine.zero with
                  ID := raw.ID
                  Hostname := raw.Hostname
                  PublicKey := raw.PublicKey
                  Endpoints := raw.Endpoints
                  Address := if raw.Addresses.len > 0 then raw.Addresses.first Addr.zero
                             else Addr.zero }
              Hosts := raw.DNS.Hosts
              Peers := peersResponseToMachinePeers raw.Peers
              Raw := body } := by
  simp only [DefaultAPI.Map, hreq, apiDo, hdo, henvelope, hread, hdecode]

/-- A successful `Map` went through every step: request built, transport
answered, no error envelope, body read and decoded. -/
theorem DefaultAPI.Map_ok_inv (c : Collaborators Req Resp σ) (api : DefaultAPI)
    (token : String) (self : UUID) (s : Net Req σ) (m : MachineMap)
    (h : (api.Map c token self s).1 = .ok m) :
    ∃ (req : Req) (resp : Resp) (body : Bytes) (raw : MachineMapResponse),
      c.NewRequestWithBearerToken MethodGet api.agent api.baseURL
          (urlMeshMap self.text) "application/json" "" "" none token = .ok req ∧
        (c.do_ req s.world).1 = .ok resp ∧
        c.ExtractError resp = none ∧
        c.ReadAll resp = .ok body ∧
        c.unmarshalMachineMapResponse body = .ok raw := by
  cases hreq : c.NewRequestWithBearerToken MethodGet api.agent api.baseURL
      (urlMeshMap self.text) "application/json" "" "" none token with
  | error e => simp [DefaultAPI.Map, hreq] at h
  | ok req =>
    cases hdo : (c.do_ req s.world).1 with
    | error e => simp [DefaultAPI.Map, hreq, apiDo, hdo] at h
    | ok resp =>
      cases henvelope : c.ExtractError resp with
      | some e => simp [DefaultAPI.Map, hreq, apiDo, hdo, henvelope] at h
      | none =>
        cases hread : c.ReadAll resp with
        | error e => simp [DefaultAPI.Map, hreq, apiDo, hdo, henvelope, hread] at h
        | ok body =>
          cases hdecode : c.unmarshalMachineMapResponse body with
          | error e =>
            simp [DefaultAPI.Map, hreq, apiDo, hdo, henvelope, hread, hdecode] at h
          | ok raw => exact ⟨req, resp, body, raw, rfl, hdo, henvelope, hread, hdecode⟩

end Lemmas

/-! ## Claims -/

section Claims

variable {Req Resp σ : Type}

/-- C1. For every token and every candidate machine whose PublicKey is the
empty string, `Register` returns no machine and `ErrPublicKeyNotProvided`,
and leaves the client state as it was: the log of requests handed to the
transport and the remote directory are untouched, so `api.do` was not invoked. -/
theorem register_empty_public_key (c : Collaborators Req Resp σ) (api : DefaultAPI)
    (token : String) (peer : Machine) (s : Net Req σ) (hkey : peer.PublicKey = "") :
    api.Register c token peer s = (.error Error.ErrPublicKeyNotProvided, s) ∧
      (api.Register c token peer s).2.calls = s.calls := by
  simp [DefaultAPI.Register, hkey]

/-- Witness of C1: the zero machine (empty key) against the stub directory. -/
theorem register_empty_public_key_witness :
    Machine.zero.PublicKey = "" ∧
      stubAPI.Register (okStub scenarioCreated emptyTopology Slice.nil) "token"
          Machine.zero stubNet = (.error Error.ErrPublicKeyNotProvided, stubNet) ∧
      (stubAPI.Register (okStub scenarioCreated emptyTopology Slice.nil) "token"
          Machine.zero stubNet).2.calls = stubNet.calls :=
  ⟨rfl, register_empty_public_key _ stubAPI "token" Machine.zero stubNet rfl⟩

/-- C2 as stated fails: a candidate whose OS name is empty and whose public
key is empty too is answered with `ErrPublicKeyNotProvided`, not with
`ErrPeerOSNotProvided`. -/
theorem register_empty_os_counterexample :
    (Machine.zero.OS.Name = "" ∨ Machine.zero.OS.Distro = "") ∧
      (stubAPI.Register (okStub scenarioCreated emptyTopology Slice.nil) "token"
          Machine.zero stubNet).1 = .error Error.ErrPublicKeyNotProvided ∧
      (stubAPI.Register (okStub scenarioCreated emptyTopology Slice.nil) "token"
          Machine.zero stubNet).1 ≠ .error Error.ErrPeerOSNotProvided := by
  refine ⟨Or.inl rfl, ?_, ?_⟩ <;> simp [DefaultAPI.Register, Machine.zero]

/-- C2, amended. For every token and every candidate machine whose OS.Name is
empty or whose OS.Distro is empty, `Register` returns no machine and leaves
the client state as it was (`api.do` is not invoked); the error is
`ErrPeerOSNotProvided` when the candidate's PublicKey is non-empty and
`ErrPublicKeyNotProvided` when it is empty, the key being checked first. -/
theorem register_empty_os (c : Collaborators Req Resp σ) (api : DefaultAPI)
    (token : String) (peer : Machine) (s : Net Req σ)
    (hos : peer.OS.Name = "" ∨ peer.OS.Distro = "") :
    api.Register c token peer s =
        (.error (if peer.PublicKey = "" then Error.ErrPublicKeyNotProvided
                 else Error.ErrPeerOSNotProvided), s) ∧
      (api.Register c token peer s).2.calls = s.calls := by
  by_cases hkey : peer.PublicKey = "" <;> simp [DefaultAPI.Register, hkey, hos]

/-- Witness of C2 (amended): key "pk1", OS name "linux", empty distro. -/
theorem register_empty_os_witness :
    stubAPI.Register (okStub scenarioCreated emptyTopology Slice.nil) "token"
        { scenarioCandidate with OS := { Name := "linux", Distro := "" } } stubNet
      = (.error Error.ErrPeerOSNotProvided, stubNet) :=
  (register_empty_os (okStub scenarioCreated emptyTopology Slice.nil) stubAPI "token"
    { scenarioCandidate with OS := { Name := "linux", Distro := "" } } stubNet
    (Or.inr rfl)).1

/-- C3. For every token, machine id and endpoint list of length 0 (the nil
slice or an empty one), `Update` returns `ErrPeerEndpointsNotProvided` and
leaves the client state as it was, so `api.do` is not invoked; for every
non-empty endpoint list `Update` does not return that error, and once the
body is encoded and the request built it hands that request to the transport. -/
theorem update_endpoints_precondition (c : Collaborators Req Resp σ) (api : DefaultAPI)
    (token : String) (id : UUID) (endpoints : Slice AddrPort) (s : Net Req σ) :
    (endpoints.len = 0 →
        api.Update c token id endpoints s = (some Error.ErrPeerEndpointsNotProvided, s)) ∧
      api.Update c token id Slice.nil s = (some Error.ErrPeerEndpointsNotProvided, s) ∧
      api.Update c token id (Slice.mk []) s = (some Error.ErrPeerEndpointsNotProvided, s) ∧
      (endpoints.len ≠ 0 →
        (api.Update c token id endpoints s).1 ≠ some Error.ErrPeerEndpointsNotProvided) ∧
      (endpoints.len ≠ 0 →
        ∀ (data : Bytes) (req : Req),
          c.marshalMachineUpdateRequest { Endpoints := endpoints, SupportsRouting := true }
            = .ok data →
          c.NewRequestWithBearerToken MethodPatch api.agent api.baseURL
            (urlMeshMachines id.text) "application/json" "" "" (some data) token = .ok req →
          (api.Update c token id endpoints s).2.calls = s.calls ++ [req]) := by
  refine ⟨?_, ?_, ?_, ?_, ?_⟩
  · intro h
    simp [DefaultAPI.Update, h]
  · simp [DefaultAPI.Update, Slice.len, Slice.toList]
  · simp [DefaultAPI.Update, Slice.len, Slice.toList]
  · intro h
    simp only [DefaultAPI.Update, h, if_false]
    split
    · simp
    · split
      · simp
      · split
        · simp
        · cases c.ExtractError _ <;> simp
  · intro h data req hmarshal hreq
    cases hdo : (c.do_ req s.world).1 <;>
      simp [DefaultAPI.Update, h, hmarshal, hreq, apiDo, hdo]

/-- Witness of C3: an empty list is refused without a call, and one endpoint
passes the check and reaches the transport. -/
theorem update_endpoints_precondition_witness :
    stubAPI.Update (okStub scenarioCreated emptyTopology Slice.nil) "token" ⟨"m1"⟩
        (Slice.mk []) stubNet = (some Error.ErrPeerEndpointsNotProvided, stubNet) ∧
      (stubAPI.Update (okStub scenarioCreated emptyTopology Slice.nil) "token" ⟨"m1"⟩
        (Slice.mk [⟨Addr.ip "10.0.0.1", 51820⟩]) stubNet).1
          ≠ some Error.ErrPeerEndpointsNotProvided :=
  ⟨(update_endpoints_precondition _ stubAPI "token" ⟨"m1"⟩ (Slice.mk []) stubNet).2.2.1,
   (update_endpoints_precondition (okStub scenarioCreated emptyTopology Slice.nil) stubAPI
      "token" ⟨"m1"⟩ (Slice.mk [⟨Addr.ip "10.0.0.1", 51820⟩]) stubNet).2.2.2.1
      (by simp [Slice.len, Slice.toList])⟩

/-- C4. For every candidate machine that passes the preconditions and every
decoded success response with at least one address, `Register` returns a
Machine whose ID, Hostname and Endpoints are the response's identifier,
hostname and endpoints, whose Address is the first element of the response's
address list, and whose OS and PublicKey are the candidate's. -/
theorem register_success (c : Collaborators Req Resp σ) (api : DefaultAPI)
    (token : String) (peer : Machine) (s : Net Req σ)
    (data : Bytes) (req : Req) (resp : Resp) (body : Bytes) (raw : MachineCreateResponse)
    (hkey : peer.PublicKey ≠ "") (hname : peer.OS.Name ≠ "") (hdistro : peer.OS.Distro ≠ "")
    (hmarshal : c.marshalMachineCreateRequest
        { PublicKey := peer.PublicKey, HardwareID := peer.HardwareID, OS := peer.OS.Name,
          Distro := peer.OS.Distro, Endpoints := peer.Endpoints,
          SupportsRouting := peer.SupportsRouting } = .ok data)
    (hreq : c.NewRequestWithBearerToken MethodPost api.agent api.baseURL urlMeshRegister
        "application/json" "" "" (some data) token = .ok req)
    (hdo : (c.do_ req s.world).1 = .ok resp)
    (henvelope : c.ExtractError resp = none)
    (hread : c.ReadAll resp = .ok body)
    (hdecode : c.unmarshalMachineCreateResponse body = .ok raw)
    (haddr : 1 ≤ raw.Addresses.len) :
    ∃ m : Machine,
      (api.Register c token peer s).1 = .ok m ∧
        m.ID = raw.Identifier ∧ m.Hostname = raw.Hostname ∧ m.Endpoints = raw.Endpoints ∧
        raw.Addresses.toList.head? = some m.Address ∧
        m.OS = peer.OS ∧ m.PublicKey = peer.PublicKey := by
  have hlt : ¬ raw.Addresses.len < 1 := by omega
  have hpos : raw.Addresses.len > 0 := by omega
  refine ⟨{ Machine.zero with
             ID := raw.Identifier, Hostname := raw.Hostname, OS := peer.OS,
             PublicKey := peer.PublicKey, Endpoints := raw.Endpoints,
             Address := raw.Addresses.first Addr.zero }, ?_, rfl, rfl, rfl, ?_, rfl, rfl⟩
  · simp only [DefaultAPI.Register, hkey, hname, hdistro, hmarshal, hreq, apiDo, hdo,
      henvelope, hread, hdecode, hlt, hpos, if_false, if_true, or_self]
  · simp only [Slice.first]
    cases hl : raw.Addresses.toList with
    | nil => simp [Slice.len, hl] at hpos
    | cons a rest => rfl

/-- Witness of C4: the scenario of the specification. The candidate with key
"pk1" and OS linux/ubuntu, answered with identifier m1, hostname h1, endpoint
10.0.0.1:51820 and address 10.0.0.1, is registered as the machine with ID m1,
hostname h1, key pk1 and address 10.0.0.1. -/
theorem register_success_witness :
    (stubAPI.Register (okStub scenarioCreated emptyTopology Slice.nil) "token"
        scenarioCandidate stubNet).1
      = .ok { Machine.zero with
              ID := ⟨"m1"⟩, Hostname := "h1", OS := { Name := "linux", Distro := "ubuntu" },
              PublicKey := "pk1", Endpoints := Slice.mk [⟨Addr.ip "10.0.0.1", 51820⟩],
              Address := Addr.ip "10.0.0.1" } ∧
      ∃ m : Machine,
        (stubAPI.Register (okStub scenarioCreated emptyTopology Slice.nil) "token"
            scenarioCandidate stubNet).1 = .ok m ∧
          m.ID = scenarioCreated.Identifier ∧ m.Hostname = scenarioCreated.Hostname ∧
          m.Endpoints = scenarioCreated.Endpoints ∧
          scenarioCreated.Addresses.toList.head? = some m.Address ∧
          m.OS = scenarioCandidate.OS ∧ m.PublicKey = scenarioCandidate.PublicKey :=
  ⟨rfl,
   register_success (okStub scenarioCreated emptyTopology Slice.nil) stubAPI "token"
    scenarioCandidate stubNet [91, 93]
    { method := MethodPost, path := urlMeshRegister, body := some [91, 93], token := "token" }
    { envelope := none, body := [123, 125] } [123, 125] scenarioCreated
    (by decide) (by decide) (by decide) rfl rfl rfl rfl rfl rfl (by decide)⟩

/-- C5 as stated fails: a decoded success response whose endpoint list is
empty and whose address list is not is accepted; `Register` returns a machine
with that empty endpoint list and no error. -/
theorem register_empty_endpoints_counterexample :
    ({ scenarioCreated with Endpoints := Slice.mk [] } : MachineCreateResponse).Endpoints.len = 0 ∧
      (stubAPI.Register
          (okStub { scenarioCreated with Endpoints := Slice.mk [] } emptyTopology Slice.nil)
          "token" scenarioCandidate stubNet).1
        = .ok { Machine.zero with
                ID := ⟨"m1"⟩, Hostname := "h1",
                OS := { Name := "linux", Distro := "ubuntu" },
                PublicKey := "pk1", Endpoints := Slice.mk [],
                Address := Addr.ip "10.0.0.1" } :=
  ⟨rfl, rfl⟩

/-- C5, amended. For every candidate machine that passes the preconditions
and every decoded success response, `Register` returns no machine and the
error built from "invalid response" exactly when the response's address list
is empty; the endpoint list is not examined. -/
theorem register_invalid_response (c : Collaborators Req Resp σ) (api : DefaultAPI)
    (token : String) (peer : Machine) (s : Net Req σ)
    (data : Bytes) (req : Req) (resp : Resp) (body : Bytes) (raw : MachineCreateResponse)
    (hkey : peer.PublicKey ≠ "") (hname : peer.OS.Name ≠ "") (hdistro : peer.OS.Distro ≠ "")
    (hmarshal : c.marshalMachineCreateRequest
        { PublicKey := peer.PublicKey, HardwareID := peer.HardwareID, OS := peer.OS.Name,
          Distro := peer.OS.Distro, Endpoints := peer.Endpoints,
          SupportsRouting := peer.SupportsRouting } = .ok data)
    (hreq : c.NewRequestWithBearerToken MethodPost api.agent api.baseURL urlMeshRegister
        "application/json" "" "" (some data) token = .ok req)
    (hdo : (c.do_ req s.world).1 = .ok resp)
    (henvelope : c.ExtractError resp = none)
    (hread : c.ReadAll resp = .ok body)
    (hdecode : c.unmarshalMachineCreateResponse body = .ok raw) :
    ((api.Register c token peer s).1 = .error (Error.new "invalid response")
        ↔ raw.Addresses.len = 0) ∧
      (raw.Addresses.len ≠ 0 →
        ∃ m : Machine, (api.Register c token peer s).1 = .ok m ∧ m.Endpoints = raw.Endpoints) := by
  by_cases hzero : raw.Addresses.len = 0
  · have hlt : raw.Addresses.len < 1 := by omega
    simp only [DefaultAPI.Register, hkey, hname, hdistro, hmarshal, hreq, apiDo, hdo,
      henvelope, hread, hdecode, hlt, if_false, if_true, or_self, hzero]
    simp
  · have hlt : ¬ raw.Addresses.len < 1 := by omega
    simp only [DefaultAPI.Register, hkey, hname, hdistro, hmarshal, hreq, apiDo, hdo,
      henvelope, hread, hdecode, hlt, if_false, or_self, hzero]
    simp

/-- Witness of C5 (amended): the scenario's answer with the address list
emptied is refused with the "invalid response" error. -/
theorem register_invalid_response_witness :
    (stubAPI.Register
        (okStub { scenarioCreated with Addresses := Slice.mk [] } emptyTopology Slice.nil)
        "token" scenarioCandidate stubNet).1 = .error (Error.new "invalid response") :=
  (register_invalid_response
    (okStub { scenarioCreated with Addresses := Slice.mk [] } emptyTopology Slice.nil)
    stubAPI "token" scenarioCandidate stubNet [91, 93]
    { method := MethodPost, path := urlMeshRegister, body := some [91, 93], token := "token" }
    { envelope := none, body := [123, 125] } [123, 125]
    { scenarioCreated with Addresses := Slice.mk [] }
    (by decide) (by decide) (by decide) rfl rfl rfl rfl rfl rfl).1.mpr rfl

/-- C6. Grant round trip. `Configure` hands to the transport the request whose
body is the encoding of the record that carries each of the five supplied
booleans in its own field. When `List`, run next, decodes a peer record that
echoes those five outbound values (its other fields arbitrary), the
MachinePeer at the same position has DoIAllowInbound, DoIAllowRouting,
DoIAllowLocalNetwork, DoIAllowFileshare and AlwaysAcceptFiles equal to the
values supplied, and every inbound field and IsLocal equal to the record's. -/
theorem configure_list_grant_round_trip (c : Collaborators Req Resp σ) (api : DefaultAPI)
    (token : String) (id peerID : UUID)
    (inbound routing localNetwork fileshare alwaysAccept : Bool) (s : Net Req σ)
    (data : Bytes) (req : Req)
    (lreq : Req) (lresp : Resp) (lbody : Bytes) (records : Slice MachinePeerResponse)
    (i : Nat) (p : MachinePeerResponse)
    (hmarshal : c.marshalPeerUpdateRequest
        { DoIAllowInbound := inbound, DoIAllowRouting := routing,
          DoIAllowLocalNetwork := localNetwork, DoIAllowFileshare := fileshare,
          AllwaysAcceptFiles := alwaysAccept } = .ok data)
    (hreq : c.NewRequestWithBearerToken MethodPatch api.agent api.baseURL
        (urlMeshMachinesPeers id.text peerID.text) "application/json" "" "" (some data)
        token = .ok req)
    (hlreq : c.NewRequestWithBearerToken MethodGet api.agent api.baseURL
        (urlMeshPeers id.text) "application/json" "" "" none token = .ok lreq)
    (hldo : (c.do_ lreq
        (api.Configure c token id peerID inbound routing localNetwork fileshare alwaysAccept
          s).2.world).1 = .ok lresp)
    (hlenvelope : c.ExtractError lresp = none)
    (hlread : c.ReadAll lresp = .ok lbody)
    (hldecode : c.unmarshalMachinePeerResponses lbody = .ok records)
    (hrecord : records.toList[i]? = some p)
    (hinbound : p.DoIAllowInbound = inbound)
    (hrouting : p.DoIAllowRouting = routing)
    (hlocal : p.DoIAllowLocalNetwork = localNetwork)
    (hfileshare : p.DoIAllowFileshare = fileshare)
    (halways : p.AlwaysAcceptFiles = alwaysAccept) :
    (api.Configure c token id peerID inbound routing localNetwork fileshare alwaysAccept
        s).2.calls = s.calls ++ [req] ∧
      ∃ (peers : Slice MachinePeer) (mp : MachinePeer),
        (api.List c token id
          (api.Configure c token id peerID inbound routing localNetwork fileshare
            alwaysAccept s).2).1 = .ok peers ∧
        peers.toList[i]? = some mp ∧
        mp.DoIAllowInbound = inbound ∧ mp.DoIAllowRouting = routing ∧
        mp.DoIAllowLocalNetwork = localNetwork ∧ mp.DoIAllowFileshare = fileshare ∧
        mp.AlwaysAcceptFiles = alwaysAccept ∧
        mp.DoesPeerAllowRouting = p.DoesPeerAllowRouting ∧
        mp.DoesPeerAllowInbound = p.DoesPeerAllowInbound ∧
        mp.DoesPeerAllowLocalNetwork = p.DoesPeerAllowLocalNetwork ∧
        mp.DoesPeerAllowFileshare = p.DoesPeerAllowFileshare ∧
        mp.DoesPeerSupportRouting = p.DoesPeerSupportRouting ∧
        mp.IsLocal = p.IsLocal := by
  refine ⟨?_, ?_⟩
  · cases hdo : (c.do_ req s.world).1 <;>
      simp [DefaultAPI.Configure, hmarshal, hreq, apiDo, hdo]
  · obtain ⟨mp, hmp, h1, h2, h3, h4, h5, h6, h7, h8, h9, h10, h11⟩ :=
      peersResponseToMachinePeers_at records i p hrecord
    exact ⟨peersResponseToMachinePeers records, mp,
      DefaultAPI.List_ok c api token id _ lreq lresp lbody records hlreq hldo
        hlenvelope hlread hldecode,
      hmp, h1.trans hinbound, h2.trans hrouting, h3.trans hlocal, h4.trans hfileshare,
      h5.trans halways, h6, h7, h8, h9, h10, h11⟩

/-- Witness of C6: the scenario of the specification, routing and fileshare
granted, inbound, local network and always-accept refused. -/
theorem configure_list_grant_round_trip_witness :
    ∃ (peers : Slice MachinePeer) (mp : MachinePeer),
      (stubAPI.List (okStub scenarioCreated emptyTopology (Slice.mk [scenarioEcho])) "token"
        ⟨"m1"⟩
        (stubAPI.Configure (okStub scenarioCreated emptyTopology (Slice.mk [scenarioEcho]))
          "token" ⟨"m1"⟩ ⟨"p1"⟩ false true false true false stubNet).2).1 = .ok peers ∧
      peers.toList[0]? = some mp ∧
      mp.DoIAllowInbound = false ∧ mp.DoIAllowRouting = true ∧
      mp.DoIAllowLocalNetwork = false ∧ mp.DoIAllowFileshare = true ∧
      mp.AlwaysAcceptFiles = false ∧
      mp.DoesPeerAllowRouting = scenarioEcho.DoesPeerAllowRouting ∧
      mp.DoesPeerAllowInbound = scenarioEcho.DoesPeerAllowInbound ∧
      mp.DoesPeerAllowLocalNetwork = scenarioEcho.DoesPeerAllowLocalNetwork ∧
      mp.DoesPeerAllowFileshare = scenarioEcho.DoesPeerAllowFileshare ∧
      mp.DoesPeerSupportRouting = scenarioEcho.DoesPeerSupportRouting ∧
      mp.IsLocal = scenarioEcho.IsLocal :=
  (configure_list_grant_round_trip
    (okStub scenarioCreated emptyTopology (Slice.mk [scenarioEcho])) stubAPI "token"
    ⟨"m1"⟩ ⟨"p1"⟩ false true false true false stubNet [91, 93]
    { method := MethodPatch, path := urlMeshMachinesPeers "m1" "p1", body := some [91, 93],
      token := "token" }
    { method := MethodGet, path := urlMeshPeers "m1", body := none, token := "token" }
    { envelope := none, body := [123, 125] } [123, 125] (Slice.mk [scenarioEcho]) 0
    scenarioEcho rfl rfl rfl rfl rfl rfl rfl rfl rfl rfl rfl rfl rfl).2

/-- C7. For every successful `Map` call, the Raw field of the returned
MachineMap is exactly the byte sequence read from the response body, whatever
that body decodes to, and the parsed fields (machine, hosts, peers) are built
from the record decoded from that same byte sequence. -/
theorem map_raw_is_body (c : Collaborators Req Resp σ) (api : DefaultAPI)
    (token : String) (self : UUID) (s : Net Req σ) (m : MachineMap)
    (hok : (api.Map c token self s).1 = .ok m) :
    ∃ (req : Req) (resp : Resp) (raw : MachineMapResponse),
      c.NewRequestWithBearerToken MethodGet api.agent api.baseURL
          (urlMeshMap self.text) "application/json" "" "" none token = .ok req ∧
        (c.do_ req s.world).1 = .ok resp ∧
        c.ReadAll resp = .ok m.Raw ∧
        c.unmarshalMachineMapResponse m.Raw = .ok raw ∧
        m.Peers = peersResponseToMachinePeers raw.Peers ∧
        m.Hosts = raw.DNS.Hosts ∧
        m.Machine.ID = raw.ID ∧ m.Machine.Hostname = raw.Hostname ∧
        m.Machine.PublicKey = raw.PublicKey ∧ m.Machine.Endpoints = raw.Endpoints ∧
        m.Machine.Address = raw.Addresses.toList.headD Addr.zero := by
  obtain ⟨req, resp, body, raw, hreq, hdo, henvelope, hread, hdecode⟩ :=
    DefaultAPI.Map_ok_inv c api token self s m hok
  have hval := DefaultAPI.Map_ok c api token self s req resp body raw hreq hdo henvelope
    hread hdecode
  rw [hok] at hval
  injection hval with hm
  subst hm
  exact ⟨req, resp, raw, hreq, hdo, hread, hdecode, rfl, rfl, rfl, rfl, rfl, rfl,
    Slice.guarded_first raw.Addresses⟩

/-- Witness of C7: the stub directory answers with the two bytes 123, 125 and
`Map` returns them as Raw. -/
theorem map_raw_is_body_witness :
    ∃ m : MachineMap,
      (stubAPI.Map (okStub scenarioCreated emptyTopology Slice.nil) "token" ⟨"m1"⟩
        stubNet).1 = .ok m ∧
      m.Raw = [123, 125] ∧
      ∃ (req : StubRequest) (resp : StubResponse) (raw : MachineMapResponse),
        (okStub scenarioCreated emptyTopology Slice.nil).NewRequestWithBearerToken MethodGet
            stubAPI.agent stubAPI.baseURL (urlMeshMap "m1") "application/json" "" "" none
            "token" = .ok req ∧
          ((okStub scenarioCreated emptyTopology Slice.nil).do_ req stubNet.world).1
            = .ok resp ∧
          (okStub scenarioCreated emptyTopology Slice.nil).ReadAll resp = .ok m.Raw ∧
          (okStub scenarioCreated emptyTopology Slice.nil).unmarshalMachineMapResponse m.Raw
            = .ok raw ∧
          m.Peers = peersResponseToMachinePeers raw.Peers ∧
          m.Hosts = raw.DNS.Hosts ∧
          m.Machine.ID = raw.ID ∧ m.Machine.Hostname = raw.Hostname ∧
          m.Machine.PublicKey = raw.PublicKey ∧ m.Machine.Endpoints = raw.Endpoints ∧
          m.Machine.Address = raw.Addresses.toList.headD Addr.zero :=
  ⟨_, rfl, rfl,
   map_raw_is_body (okStub scenarioCreated emptyTopology Slice.nil) stubAPI "token" ⟨"m1"⟩
     stubNet _ rfl⟩

/-- C8. For every well-formed `Map` response, `Map` returns no error and a
MachineMap whose Peers is a non-nil sequence with exactly as many elements as
the response's peer list, in the same order: the peer at each position carries
the ID, Hostname, OS name and distro, PublicKey, Endpoints, first address (or
the zero address), Email, IsLocal and every permission flag of the record at
that position. When the response's peer list is empty or absent, Peers is the
non-nil sequence of length 0. -/
theorem map_peers_follow_response (c : Collaborators Req Resp σ) (api : DefaultAPI)
    (token : String) (self : UUID) (s : Net Req σ) (req : Req) (resp : Resp) (body : Bytes)
    (raw : MachineMapResponse)
    (hreq : c.NewRequestWithBearerToken MethodGet api.agent api.baseURL
        (urlMeshMap self.text) "application/json" "" "" none token = .ok req)
    (hdo : (c.do_ req s.world).1 = .ok resp)
    (henvelope : c.ExtractError resp = none)
    (hread : c.ReadAll resp = .ok body)
    (hdecode : c.unmarshalMachineMapResponse body = .ok raw) :
    ∃ m : MachineMap,
      (api.Map c token self s).1 = .ok m ∧
        m.Peers.isNil = false ∧
        m.Peers.len = raw.Peers.len ∧
        List.Forall₂
          (fun (mp : MachinePeer) (p : MachinePeerResponse) =>
            mp.ID = p.ID ∧ mp.Hostname = p.Hostname ∧
              mp.OS = { Name := p.OS, Distro := p.Distro } ∧
              mp.PublicKey = p.PublicKey ∧ mp.Endpoints = p.Endpoints ∧
              mp.Address = p.Addresses.toList.headD Addr.zero ∧
              mp.Email = p.Email ∧ mp.IsLocal = p.IsLocal ∧
              mp.DoesPeerAllowRouting = p.DoesPeerAllowRouting ∧
              mp.DoesPeerAllowInbound = p.DoesPeerAllowInbound ∧
              mp.DoesPeerAllowLocalNetwork = p.DoesPeerAllowLocalNetwork ∧
              mp.DoesPeerAllowFileshare = p.DoesPeerAllowFileshare ∧
              mp.DoesPeerSupportRouting = p.DoesPeerSupportRouting ∧
              mp.DoIAllowRouting = p.DoIAllowRouting ∧
              mp.DoIAllowInbound = p.DoIAllowInbound ∧
              mp.DoIAllowLocalNetwork = p.DoIAllowLocalNetwork ∧
              mp.DoIAllowFileshare = p.DoIAllowFileshare ∧
              mp.AlwaysAcceptFiles = p.AlwaysAcceptFiles)
          m.Peers.toList raw.Peers.toList ∧
        (raw.Peers.len = 0 → m.Peers = Slice.mk [] ∧ m.Peers.len = 0) := by
  refine ⟨_, DefaultAPI.Map_ok c api token self s req resp body raw hreq hdo henvelope
    hread hdecode, ?_, ?_, ?_, ?_⟩
  · simp only [peersResponseToMachinePeers_eq_map, Slice.isNil]
  · simp only [peersResponseToMachinePeers_eq_map, Slice.len, Slice.toList_mk,
      List.length_map]
  · simp only [peersResponseToMachinePeers_eq_map, Slice.toList_mk]
    rw [List.forall₂_map_left_iff, List.forall₂_same]
    intro p _
    exact ⟨rfl, rfl, rfl, rfl, rfl, Slice.guarded_first p.Addresses, rfl, rfl, rfl, rfl,
      rfl, rfl, rfl, rfl, rfl, rfl, rfl, rfl⟩
  · intro hzero
    have hnil : raw.Peers.toList = [] := List.length_eq_zero.mp hzero
    simp [peersResponseToMachinePeers_eq_map, hnil, Slice.len, Slice.toList_mk]

/-- Witness of C8: a map answer with the two distinct records p1 and p2 yields
exactly the two peers p1 and p2 in that order, each with its own record's
fields, and a map answer without a peer list yields the non-nil empty
sequence of peers and no error. -/
theorem map_peers_follow_response_witness :
    (∃ m : MachineMap,
      (stubAPI.Map (okStub scenarioCreated twoPeerTopology Slice.nil) "token" ⟨"m1"⟩
        stubNet).1 = .ok m ∧
      m.Peers.isNil = false ∧ m.Peers.len = 2 ∧
      List.Forall₂
        (fun (mp : MachinePeer) (p : MachinePeerResponse) =>
          mp.ID = p.ID ∧ mp.Hostname = p.Hostname ∧
            mp.OS = { Name := p.OS, Distro := p.Distro } ∧
            mp.PublicKey = p.PublicKey ∧ mp.Endpoints = p.Endpoints ∧
            mp.Address = p.Addresses.toList.headD Addr.zero ∧
            mp.Email = p.Email ∧ mp.IsLocal = p.IsLocal ∧
            mp.DoesPeerAllowRouting = p.DoesPeerAllowRouting ∧
            mp.DoesPeerAllowInbound = p.DoesPeerAllowInbound ∧
            mp.DoesPeerAllowLocalNetwork = p.DoesPeerAllowLocalNetwork ∧
            mp.DoesPeerAllowFileshare = p.DoesPeerAllowFileshare ∧
            mp.DoesPeerSupportRouting = p.DoesPeerSupportRouting ∧
            mp.DoIAllowRouting = p.DoIAllowRouting ∧
            mp.DoIAllowInbound = p.DoIAllowInbound ∧
            mp.DoIAllowLocalNetwork = p.DoIAllowLocalNetwork ∧
            mp.DoIAllowFileshare = p.DoIAllowFileshare ∧
            mp.AlwaysAcceptFiles = p.AlwaysAcceptFiles)
        m.Peers.toList [blankPeerRecord, secondPeerRecord]) ∧
      ((stubAPI.Map (okStub scenarioCreated twoPeerTopology Slice.nil) "token" ⟨"m1"⟩
          stubNet).1.toOption.map fun m => m.Peers.toList.map fun mp => (mp.ID, mp.Address))
        = some [(⟨"p1"⟩, Addr.zero), (⟨"p2"⟩, Addr.ip "10.0.0.2")] ∧
      ∃ m : MachineMap,
        (stubAPI.Map (okStub scenarioCreated emptyTopology Slice.nil) "token" ⟨"m1"⟩
          stubNet).1 = .ok m ∧
        m.Peers = Slice.mk [] ∧ m.Peers.isNil = false ∧ m.Peers.len = 0 :=
  ⟨(map_peers_follow_response (okStub scenarioCreated twoPeerTopology Slice.nil) stubAPI
      "token" ⟨"m1"⟩ stubNet
      { method := MethodGet, path := urlMeshMap "m1", body := none, token := "token" }
      { envelope := none, body := [123, 125] } [123, 125] twoPeerTopology
      rfl rfl rfl rfl rfl).elim
      fun m h => ⟨m, h.1, h.2.1, h.2.2.1, h.2.2.2.1⟩,
   rfl,
   (map_peers_follow_response (okStub scenarioCreated emptyTopology Slice.nil) stubAPI
      "token" ⟨"m1"⟩ stubNet
      { method := MethodGet, path := urlMeshMap "m1", body := none, token := "token" }
      { envelope := none, body := [123, 125] } [123, 125] emptyTopology
      rfl rfl rfl rfl rfl).elim
      fun m h => ⟨m, h.1, (h.2.2.2.2 rfl).1, h.2.1, (h.2.2.2.2 rfl).2⟩⟩

/-- C9. `peersResponseToLocalPeers` strips every peer-specific field: two
lists of peer records of equal length that agree position by position on ID,
Hostname, OS, Distro, PublicKey, Endpoints and Addresses have equal results,
whatever their Email, IsLocal and permission flags; each result Machine has
ID, Hostname, OS name and distro, PublicKey and Endpoints copied from its
record and Address equal to the record's first address, or the zero address
when the record has none. -/
theorem local_peers_ignore_peer_fields (xs ys : Slice MachinePeerResponse)
    (hagree : List.Forall₂
      (fun p q : MachinePeerResponse =>
        p.ID = q.ID ∧ p.Hostname = q.Hostname ∧ p.OS = q.OS ∧ p.Distro = q.Distro ∧
          p.PublicKey = q.PublicKey ∧ p.Endpoints = q.Endpoints ∧ p.Addresses = q.Addresses)
      xs.toList ys.toList) :
    peersResponseToLocalPeers xs = peersResponseToLocalPeers ys ∧
      List.Forall₂
        (fun (m : Machine) (p : MachinePeerResponse) =>
          m.ID = p.ID ∧ m.Hostname = p.Hostname ∧ m.OS = { Name := p.OS, Distro := p.Distro } ∧
            m.PublicKey = p.PublicKey ∧ m.Endpoints = p.Endpoints ∧
            m.Address = p.Addresses.toList.headD Addr.zero)
        (peersResponseToLocalPeers xs).toList xs.toList := by
  constructor
  · simp only [peersResponseToLocalPeers_eq_map]
    congr 1
    generalize xs.toList = l₁ at hagree
    generalize ys.toList = l₂ at hagree
    induction hagree with
    | nil => rfl
    | cons hpq _ ih =>
      obtain ⟨h1, h2, h3, h4, h5, h6, h7⟩ := hpq
      simp only [List.map_cons, ih, h1, h2, h3, h4, h5, h6, h7]
  · simp only [peersResponseToLocalPeers_eq_map, Slice.toList_mk]
    rw [List.forall₂_map_left_iff, List.forall₂_same]
    intro p _
    exact ⟨rfl, rfl, rfl, rfl, rfl, Slice.guarded_first p.Addresses⟩

/-- Witness of C9: the blank record and the same record with another e-mail
address, marked local and with every grant set, convert to the same Machine. -/
theorem local_peers_ignore_peer_fields_witness :
    peersResponseToLocalPeers (Slice.mk [blankPeerRecord])
      = peersResponseToLocalPeers (Slice.mk
          [{ blankPeerRecord with
             Email := "peer@example.com", IsLocal := true,
             DoesPeerAllowRouting := true, DoesPeerAllowInbound := true,
             DoesPeerAllowLocalNetwork := true, DoesPeerAllowFileshare := true,
             DoesPeerSupportRouting := true, DoIAllowRouting := true,
             DoIAllowInbound := true, DoIAllowLocalNetwork := true,
             DoIAllowFileshare := true, AlwaysAcceptFiles := true }]) :=
  (local_peers_ignore_peer_fields (Slice.mk [blankPeerRecord])
    (Slice.mk
      [{ blankPeerRecord with
         Email := "peer@example.com", IsLocal := true,
         DoesPeerAllowRouting := true, DoesPeerAllowInbound := true,
         DoesPeerAllowLocalNetwork := true, DoesPeerAllowFileshare := true,
         DoesPeerSupportRouting := true, DoIAllowRouting := true,
         DoIAllowInbound := true, DoIAllowLocalNetwork := true,
         DoIAllowFileshare := true, AlwaysAcceptFiles := true }])
    (List.Forall₂.cons ⟨rfl, rfl, rfl, rfl, rfl, rfl, rfl⟩ List.Forall₂.nil)).1

/-- C10. `Accept`, `Reject` and `Revoke` never turn a failure reported by the
directory into success: whenever the transport answered, each returns exactly
what `ExtractError` found in that answer (the envelope's error when there is
one), and each returns nil only when its request was built, the transport
call succeeded and the envelope check found no error. -/
theorem invitation_calls_return_envelope_error (c : Collaborators Req Resp σ)
    (api : DefaultAPI) (token : String) (self invitation : UUID)
    (inbound routing localNetwork fileshare : Bool) (s : Net Req σ) :
    (∀ (data : Bytes) (req : Req) (resp : Resp),
        c.marshalAcceptInvitationRequest
            { AllowInbound := inbound, AllowRouting := routing,
              AllowLocalNetwork := localNetwork, AllowFileshare := fileshare } = .ok data →
        c.NewRequestWithBearerToken MethodPost api.agent api.baseURL
            (urlAcceptInvitation self.text invitation.text) "application/json" "" ""
            (some data) token = .ok req →
        (c.do_ req s.world).1 = .ok resp →
        (api.Accept c token self invitation inbound routing localNetwork fileshare s).1
          = (c.ExtractError resp).map Error.foreign) ∧
      (∀ (req : Req) (resp : Resp),
        c.NewRequestWithBearerToken MethodPost api.agent api.baseURL
            (urlRejectInvitation self.text invitation.text) "application/json" "" ""
            none token = .ok req →
        (c.do_ req s.world).1 = .ok resp →
        (api.Reject c token self invitation s).1 = (c.ExtractError resp).map Error.foreign) ∧
      (∀ (req : Req) (resp : Resp),
        c.NewRequestWithBearerToken MethodDelete api.agent api.baseURL
            (urlRevokeInvitation self.text invitation.text) "application/json" "" ""
            none token = .ok req →
        (c.do_ req s.world).1 = .ok resp →
        (api.Revoke c token self invitation s).1 = (c.ExtractError resp).map Error.foreign) ∧
      ((api.Accept c token self invitation inbound routing localNetwork fileshare s).1 = none →
        ∃ (data : Bytes) (req : Req) (resp : Resp),
          c.marshalAcceptInvitationRequest
              { AllowInbound := inbound, AllowRouting := routing,
                AllowLocalNetwork := localNetwork, AllowFileshare := fileshare } = .ok data ∧
            c.NewRequestWithBearerToken MethodPost api.agent api.baseURL
              (urlAcceptInvitation self.text invitation.text) "application/json" "" ""
              (some data) token = .ok req ∧
            (c.do_ req s.world).1 = .ok resp ∧ c.ExtractError resp = none) ∧
      ((api.Reject c token self invitation s).1 = none →
        ∃ (req : Req) (resp : Resp),
          c.NewRequestWithBearerToken MethodPost api.agent api.baseURL
              (urlRejectInvitation self.text invitation.text) "application/json" "" ""
              none token = .ok req ∧
            (c.do_ req s.world).1 = .ok resp ∧ c.ExtractError resp = none) ∧
      ((api.Revoke c token self invitation s).1 = none →
        ∃ (req : Req) (resp : Resp),
          c.NewRequestWithBearerToken MethodDelete api.agent api.baseURL
              (urlRevokeInvitation self.text invitation.text) "application/json" "" ""
              none token = .ok req ∧
            (c.do_ req s.world).1 = .ok resp ∧ c.ExtractError resp = none) := by
  refine ⟨?_, ?_, ?_, ?_, ?_, ?_⟩
  · intro data req resp hmarshal hreq hdo
    simp only [DefaultAPI.Accept, hmarshal, hreq, apiDo, hdo]
  · intro req resp hreq hdo
    simp only [DefaultAPI.Reject, hreq, apiDo, hdo]
  · intro req resp hreq hdo
    simp only [DefaultAPI.Revoke, hreq, apiDo, hdo]
  · intro hnil
    cases hmarshal : c.marshalAcceptInvitationRequest
        { AllowInbound := inbound, AllowRouting := routing,
          AllowLocalNetwork := localNetwork, AllowFileshare := fileshare } with
    | error e => simp [DefaultAPI.Accept, hmarshal] at hnil
    | ok data =>
      cases hreq : c.NewRequestWithBearerToken MethodPost api.agent api.baseURL
          (urlAcceptInvitation self.text invitation.text) "application/json" "" ""
          (some data) token with
      | error e => simp [DefaultAPI.Accept, hmarshal, hreq] at hnil
      | ok req =>
        cases hdo : (c.do_ req s.world).1 with
        | error e => simp [DefaultAPI.Accept, hmarshal, hreq, apiDo, hdo] at hnil
        | ok resp =>
          simp only [DefaultAPI.Accept, hmarshal, hreq, apiDo, hdo, Option.map_eq_none'] at hnil
          exact ⟨data, req, resp, rfl, hreq, hdo, hnil⟩
  · intro hnil
    cases hreq : c.NewRequestWithBearerToken MethodPost api.agent api.baseURL
        (urlRejectInvitation self.text invitation.text) "application/json" "" ""
        none token with
    | error e => simp [DefaultAPI.Reject, hreq] at hnil
    | ok req =>
      cases hdo : (c.do_ req s.world).1 with
      | error e => simp [DefaultAPI.Reject, hreq, apiDo, hdo] at hnil
      | ok resp =>
        simp only [DefaultAPI.Reject, hreq, apiDo, hdo, Option.map_eq_none'] at hnil
        exact ⟨req, resp, rfl, hdo, hnil⟩
  · intro hnil
    cases hreq : c.NewRequestWithBearerToken MethodDelete api.agent api.baseURL
        (urlRevokeInvitation self.text invitation.text) "application/json" "" ""
        none token with
    | error e => simp [DefaultAPI.Revoke, hreq] at hnil
    | ok req =>
      cases hdo : (c.do_ req s.world).1 with
      | error e => simp [DefaultAPI.Revoke, hreq, apiDo, hdo] at hnil
      | ok resp =>
        simp only [DefaultAPI.Revoke, hreq, apiDo, hdo, Option.map_eq_none'] at hnil
        exact ⟨req, resp, rfl, hdo, hnil⟩

/-- Witness of C10: against a directory that reports an invalid invitation
state, `Accept`, `Reject` and `Revoke` each return that error. -/
theorem invitation_calls_return_envelope_error_witness :
    (stubAPI.Accept invalidStateStub "token" ⟨"m1"⟩ ⟨"inv1"⟩ true false false true
        stubNet).1 = some (Error.foreign "invalid state") ∧
      (stubAPI.Reject invalidStateStub "token" ⟨"m1"⟩ ⟨"inv1"⟩ stubNet).1
        = some (Error.foreign "invalid state") ∧
      (stubAPI.Revoke invalidStateStub "token" ⟨"m1"⟩ ⟨"inv1"⟩ stubNet).1
        = some (Error.foreign "invalid state") :=
  ⟨(invitation_calls_return_envelope_error invalidStateStub stubAPI "token" ⟨"m1"⟩ ⟨"inv1"⟩
      true false false true stubNet).1 [91, 93]
      { method := MethodPost, path := urlAcceptInvitation "m1" "inv1", body := some [91, 93],
        token := "token" }
      { envelope := some "invalid state", body := [] } rfl rfl rfl,
   (invitation_calls_return_envelope_error invalidStateStub stubAPI "token" ⟨"m1"⟩ ⟨"inv1"⟩
      true false false true stubNet).2.1
      { method := MethodPost, path := urlRejectInvitation "m1" "inv1", body := none,
        token := "token" }
      { envelope := some "invalid state", body := [] } rfl rfl,
   (invitation_calls_return_envelope_error invalidStateStub stubAPI "token" ⟨"m1"⟩ ⟨"inv1"⟩
      true false false true stubNet).2.2.1
      { method := MethodDelete, path := urlRevokeInvitation "m1" "inv1", body := none,
        token := "token" }
      { envelope := some "invalid state", body := [] } rfl rfl⟩

end Claims

end Mesh
